import Mathlib

/-!
Verification development for the `@tijs/atproto-oauth` package: a shallow
embedding, in Lean, of the package's client-metadata generator
(`src/client-metadata.ts`), OAuth session store (`src/sessions.ts`), route
handlers (`src/routes.ts`) and composition root (`src/oauth.ts`), together
with theorems settling the behavioural claims about them.

External collaborators (the OAuth protocol client, the cookie session
manager, the storage backend, the handle-grammar validator and the
JSON.parse builtin) are modelled as explicit oracle inputs, so every
handler becomes a total function from its request data and collaborator
outcomes to a response value plus the ordered list of observable effects
(storage writes and deletes, session-manager calls, warn and error level
log lines) it performs.
-/

/-! ## Bytes, hex digits, UTF-8 -/

/-- Uppercase hexadecimal digit for a value below 16 (as used by percent-encoding). -/
def hexDigitChar (n : Nat) : Char :=
  if n < 10 then Char.ofNat (48 + n) else Char.ofNat (55 + n)

/-- Numeric value of a hexadecimal digit character (upper or lower case). -/
def hexVal (c : Char) : Option Nat :=
  let n := c.toNat
  if 48 ≤ n ∧ n ≤ 57 then some (n - 48)
  else if 65 ≤ n ∧ n ≤ 70 then some (n - 55)
  else if 97 ≤ n ∧ n ≤ 102 then some (n - 87)
  else none

theorem hexVal_hexDigitChar (n : Nat) (h : n < 16) : hexVal (hexDigitChar n) = some n := by
  interval_cases n <;> rfl

/-- UTF-8 byte sequence of a single Unicode scalar value, as natural numbers
below 256 (the standard 1-to-4 byte encoding). -/
def utf8Bytes (c : Char) : List Nat :=
  let n := c.toNat
  if n < 0x80 then [n]
  else if n < 0x800 then [0xC0 + n / 64, 0x80 + n % 64]
  else if n < 0x10000 then [0xE0 + n / 4096, 0x80 + n / 64 % 64, 0x80 + n % 64]
  else [0xF0 + n / 262144, 0x80 + n / 4096 % 64, 0x80 + n / 64 % 64, 0x80 + n % 64]

/-- UTF-8 bytes of a whole character list. -/
def utf8EncodeList : List Char → List Nat
  | [] => []
  | c :: cs => utf8Bytes c ++ utf8EncodeList cs

mutual

/-- Strict UTF-8 decoder: rejects continuation-byte leads, overlong forms,
surrogates and out-of-range scalars, exactly complementing `utf8Bytes`. -/
def utf8Decode : List Nat → Option (List Char)
  | [] => some []
  | b0 :: rest =>
    if b0 < 0x80 then
      (utf8Decode rest).map (Char.ofNat b0 :: ·)
    else if b0 < 0xC2 then none
    else if b0 < 0xE0 then utf8DecodeTwo b0 rest
    else if b0 < 0xF0 then utf8DecodeThree b0 rest
    else if b0 < 0xF5 then utf8DecodeFour b0 rest
    else none

/-- Continuation of `utf8Decode` after a two-byte lead. -/
def utf8DecodeTwo (b0 : Nat) : List Nat → Option (List Char)
  | b1 :: rest =>
    if 0x80 ≤ b1 ∧ b1 < 0xC0 then
      (utf8Decode rest).map (Char.ofNat ((b0 - 0xC0) * 64 + (b1 - 0x80)) :: ·)
    else none
  | [] => none

/-- Continuation of `utf8Decode` after a three-byte lead. -/
def utf8DecodeThree (b0 : Nat) : List Nat → Option (List Char)
  | b1 :: b2 :: rest =>
    if (0x80 ≤ b1 ∧ b1 < 0xC0) ∧ (0x80 ≤ b2 ∧ b2 < 0xC0) then
      let n := (b0 - 0xE0) * 4096 + (b1 - 0x80) * 64 + (b2 - 0x80)
      if 0x800 ≤ n ∧ (n < 0xD800 ∨ 0xE000 ≤ n) then
        (utf8Decode rest).map (Char.ofNat n :: ·)
      else none
    else none
  | [_] => none
  | [] => none

/-- Continuation of `utf8Decode` after a four-byte lead. -/
def utf8DecodeFour (b0 : Nat) : List Nat → Option (List Char)
  | b1 :: b2 :: b3 :: rest =>
    if (0x80 ≤ b1 ∧ b1 < 0xC0) ∧ (0x80 ≤ b2 ∧ b2 < 0xC0) ∧ (0x80 ≤ b3 ∧ b3 < 0xC0) then
      let n := (b0 - 0xF0) * 262144 + (b1 - 0x80) * 4096 + (b2 - 0x80) * 64 + (b3 - 0x80)
      if 0x10000 ≤ n ∧ n < 0x110000 then
        (utf8Decode rest).map (Char.ofNat n :: ·)
      else none
    else none
  | [_, _] => none
  | [_] => none
  | [] => none

end

theorem char_toNat_valid (c : Char) : c.toNat < 0xD800 ∨ (0xE000 ≤ c.toNat ∧ c.toNat < 0x110000) := by
  have h := c.valid
  rcases h with h | h
  · left
    exact h
  · right
    exact h

theorem utf8Bytes_lt_256 (c : Char) : ∀ b ∈ utf8Bytes c, b < 256 := by
  have hv := char_toNat_valid c
  intro b hb
  rw [utf8Bytes] at hb
  by_cases h1 : c.toNat < 0x80
  · rw [if_pos h1] at hb
    simp only [List.mem_singleton] at hb
    omega
  · rw [if_neg h1] at hb
    by_cases h2 : c.toNat < 0x800
    · rw [if_pos h2] at hb
      simp only [List.mem_cons, List.not_mem_nil, or_false] at hb
      rcases hb with hb | hb <;> omega
    · rw [if_neg h2] at hb
      by_cases h3 : c.toNat < 0x10000
      · rw [if_pos h3] at hb
        simp only [List.mem_cons, List.not_mem_nil, or_false] at hb
        rcases hb with hb | hb | hb <;> omega
      · rw [if_neg h3] at hb
        simp only [List.mem_cons, List.not_mem_nil, or_false] at hb
        rcases hb with hb | hb | hb | hb <;> omega

set_option maxHeartbeats 2000000 in
theorem utf8Decode_utf8Bytes_append (c : Char) (rest : List Nat) :
    utf8Decode (utf8Bytes c ++ rest) = (utf8Decode rest).map (c :: ·) := by
  have hv := char_toNat_valid c
  have hofn : Char.ofNat c.toNat = c := Char.ofNat_toNat c
  rw [utf8Bytes]
  by_cases h1 : c.toNat < 0x80
  · rw [if_pos h1, List.cons_append, List.nil_append, utf8Decode.eq_def]
    dsimp only
    rw [if_pos h1, hofn]
  · rw [if_neg h1]
    by_cases h2 : c.toNat < 0x800
    · rw [if_pos h2, List.cons_append, List.cons_append, List.nil_append, utf8Decode.eq_def]
      dsimp only
      rw [if_neg (by omega), if_neg (by omega), if_pos (by omega : 0xC0 + c.toNat / 64 < 0xE0),
        utf8DecodeTwo.eq_def]
      dsimp only
      rw [if_pos (by omega : 0x80 ≤ 0x80 + c.toNat % 64 ∧ 0x80 + c.toNat % 64 < 0xC0)]
      have harg : (0xC0 + c.toNat / 64 - 0xC0) * 64 + (0x80 + c.toNat % 64 - 0x80) = c.toNat := by
        omega
      rw [harg, hofn]
    · rw [if_neg h2]
      by_cases h3 : c.toNat < 0x10000
      · rw [if_pos h3, List.cons_append, List.cons_append, List.cons_append, List.nil_append,
          utf8Decode.eq_def]
        dsimp only
        rw [if_neg (by omega), if_neg (by omega), if_neg (by omega),
          if_pos (by omega : 0xE0 + c.toNat / 4096 < 0xF0), utf8DecodeThree.eq_def]
        dsimp only
        rw [if_pos (by omega :
            (0x80 ≤ 0x80 + c.toNat / 64 % 64 ∧ 0x80 + c.toNat / 64 % 64 < 0xC0) ∧
            (0x80 ≤ 0x80 + c.toNat % 64 ∧ 0x80 + c.toNat % 64 < 0xC0))]
        have harg : (0xE0 + c.toNat / 4096 - 0xE0) * 4096 + (0x80 + c.toNat / 64 % 64 - 0x80) * 64
            + (0x80 + c.toNat % 64 - 0x80) = c.toNat := by omega
        simp only [harg]
        rw [if_pos (by omega : 0x800 ≤ c.toNat ∧ (c.toNat < 0xD800 ∨ 0xE000 ≤ c.toNat)), hofn]
      · rw [if_neg h3, List.cons_append, List.cons_append, List.cons_append, List.cons_append,
          List.nil_append, utf8Decode.eq_def]
        dsimp only
        have hup : c.toNat < 0x110000 := by omega
        rw [if_neg (by omega), if_neg (by omega), if_neg (by omega), if_neg (by omega),
          if_pos (by omega : 0xF0 + c.toNat / 262144 < 0xF5), utf8DecodeFour.eq_def]
        dsimp only
        rw [if_pos (by omega :
            (0x80 ≤ 0x80 + c.toNat / 4096 % 64 ∧ 0x80 + c.toNat / 4096 % 64 < 0xC0) ∧
            (0x80 ≤ 0x80 + c.toNat / 64 % 64 ∧ 0x80 + c.toNat / 64 % 64 < 0xC0) ∧
            (0x80 ≤ 0x80 + c.toNat % 64 ∧ 0x80 + c.toNat % 64 < 0xC0))]
        have harg : (0xF0 + c.toNat / 262144 - 0xF0) * 262144
            + (0x80 + c.toNat / 4096 % 64 - 0x80) * 4096
            + (0x80 + c.toNat / 64 % 64 - 0x80) * 64 + (0x80 + c.toNat % 64 - 0x80) = c.toNat := by
          omega
        simp only [harg]
        rw [if_pos (by omega : 0x10000 ≤ c.toNat ∧ c.toNat < 0x110000), hofn]

theorem utf8Decode_utf8EncodeList (cs : List Char) :
    utf8Decode (utf8EncodeList cs) = some cs := by
  induction cs with
  | nil => rfl
  | cons c cs ih =>
    rw [utf8EncodeList, utf8Decode_utf8Bytes_append, ih]
    rfl

/-! ## application/x-www-form-urlencoded serialization (URLSearchParams.toString) -/

/-- Bytes the application/x-www-form-urlencoded serializer leaves unescaped:
ASCII alphanumerics and `*`, `-`, `.`, `_` (per the WHATWG URL standard). -/
def formSafeByte (b : Nat) : Bool :=
  decide (b = 0x2A ∨ b = 0x2D ∨ b = 0x2E ∨ b = 0x5F ∨ (0x30 ≤ b ∧ b ≤ 0x39) ∨
    (0x41 ≤ b ∧ b ≤ 0x5A) ∨ (0x61 ≤ b ∧ b ≤ 0x7A))

/-- Serialization of one byte: safe bytes kept, space becomes `+`, the rest

percent-encoded with uppercase hex. -/
def formEncodeByte (b : Nat) : List Char :=
  if formSafeByte b then [Char.ofNat b]
  else if b = 0x20 then ['+']
  else ['%', hexDigitChar (b / 16), hexDigitChar (b % 16)]

/-- Serialization of a byte sequence. -/
def formEncodeBytes : List Nat → List Char
  | [] => []
  | b :: bs => formEncodeByte b ++ formEncodeBytes bs

/-- Byte-level form-urlencoded parse: `+` is a space, `%`-escapes with valid
hex are decoded, anything else stands for its own code unit. -/
def formDecodeChars : List Char → List Nat
  | [] => []
  | c :: cs =>
    if c = '+' then 0x20 :: formDecodeChars cs
    else if c = '%' then
      match cs with
      | c1 :: c2 :: cs2 =>
        match hexVal c1, hexVal c2 with
        | some h, some l => (16 * h + l) :: formDecodeChars cs2
        | _, _ => 0x25 :: formDecodeChars (c1 :: c2 :: cs2)
      | [c1] => 0x25 :: formDecodeChars [c1]
      | [] => 0x25 :: formDecodeChars []
    else c.toNat :: formDecodeChars cs
termination_by l => l.length
decreasing_by all_goals (simp only [List.length_cons, List.length_nil]; omega)

theorem formDecodeChars_formEncodeByte (b : Nat) (hb : b < 256) (cs : List Char) :
    formDecodeChars (formEncodeByte b ++ cs) = b :: formDecodeChars cs := by
  rw [formEncodeByte]
  by_cases hsafe : formSafeByte b
  · rw [if_pos hsafe, List.cons_append, List.nil_append, formDecodeChars.eq_def]
    dsimp only
    have hsafe' := of_decide_eq_true hsafe
    have hvalid : b.isValidChar := by
      constructor
      omega
    have htn : (Char.ofNat b).toNat = b := by
      rw [Char.toNat, Char.ofNat, dif_pos hvalid]
      rfl
    have hne1 : ¬ (Char.ofNat b = '+') := by
      intro h
      have : (Char.ofNat b).toNat = 0x2B := by rw [h]; rfl
      rw [htn] at this
      omega
    have hne2 : ¬ (Char.ofNat b = '%') := by
      intro h
      have : (Char.ofNat b).toNat = 0x25 := by rw [h]; rfl
      rw [htn] at this
      omega
    rw [if_neg hne1, if_neg hne2, htn]
  · rw [if_neg hsafe]
    have hsafe' := of_decide_eq_false (Bool.of_not_eq_true hsafe)
    by_cases hsp : b = 0x20
    · rw [if_pos hsp, List.cons_append, List.nil_append, formDecodeChars.eq_def]
      dsimp only
      rw [if_pos rfl, hsp]
    · rw [if_neg hsp, List.cons_append, List.cons_append, List.cons_append, List.nil_append,
        formDecodeChars.eq_def]
      dsimp only
      rw [if_neg (by decide), if_pos rfl]
      rw [hexVal_hexDigitChar (b / 16) (by omega), hexVal_hexDigitChar (b % 16) (by omega)]
      dsimp only
      have : 16 * (b / 16) + b % 16 = b := by omega
      rw [this]

theorem formDecodeChars_formEncodeBytes (bs : List Nat) (h : ∀ b ∈ bs, b < 256) :
    formDecodeChars (formEncodeBytes bs) = bs := by
  induction bs with
  | nil => simp [formEncodeBytes, formDecodeChars]
  | cons b bs ih =>
    rw [formEncodeBytes, formDecodeChars_formEncodeByte b (h b (List.mem_cons_self b bs))]
    rw [ih (fun x hx => h x (List.mem_cons_of_mem b hx))]

theorem utf8EncodeList_lt_256 (cs : List Char) : ∀ b ∈ utf8EncodeList cs, b < 256 := by
  induction cs with
  | nil => intro b hb; simp [utf8EncodeList] at hb
  | cons c cs ih =>
    intro b hb
    rw [utf8EncodeList] at hb
    rcases List.mem_append.mp hb with hb | hb
    · exact utf8Bytes_lt_256 c b hb
    · exact ih b hb

/-- Form-urlencoded serialization of a string value, exactly as
`URLSearchParams.toString` emits it: UTF-8 encode, then escape per byte. -/
def formUrlEncode (s : String) : String :=
  String.mk (formEncodeBytes (utf8EncodeList s.data))

/-- Form-urlencoded parse of a single value back into a string (UTF-8 decode
of the unescaped bytes); `none` when the bytes are not valid UTF-8. -/
def formUrlDecode (s : String) : Option String :=
  (utf8Decode (formDecodeChars s.data)).map String.mk

/-- Round trip: decoding a form-urlencoded value gives back the original string. -/
theorem formUrlDecode_formUrlEncode (s : String) : formUrlDecode (formUrlEncode s) = some s := by
  rw [formUrlEncode, formUrlDecode]
  show (utf8Decode (formDecodeChars (formEncodeBytes (utf8EncodeList s.data)))).map String.mk
    = some s
  rw [formDecodeChars_formEncodeBytes _ (utf8EncodeList_lt_256 s.data),
    utf8Decode_utf8EncodeList]
  rfl

/-! ## encodeURIComponent -/

/-- Bytes `encodeURIComponent` leaves unescaped: ASCII alphanumerics and
the marks `- _ . ! ~ * \x27 ( )` (ECMA-262 unescaped set). -/
def uriComponentSafeByte (b : Nat) : Bool :=
  decide (b = 0x2D ∨ b = 0x5F ∨ b = 0x2E ∨ b = 0x21 ∨ b = 0x7E ∨ b = 0x2A ∨ b = 0x27 ∨
    b = 0x28 ∨ b = 0x29 ∨ (0x30 ≤ b ∧ b ≤ 0x39) ∨ (0x41 ≤ b ∧ b ≤ 0x5A) ∨
    (0x61 ≤ b ∧ b ≤ 0x7A))

/-- Percent-escape of one byte for `encodeURIComponent` (space is `%20`, not `+`). -/
def uriEncodeByte (b : Nat) : List Char :=
  if uriComponentSafeByte b then [Char.ofNat b]
  else ['%', hexDigitChar (b / 16), hexDigitChar (b % 16)]

/-- Byte-sequence escape for `encodeURIComponent`. -/
def uriEncodeBytes : List Nat → List Char
  | [] => []
  | b :: bs => uriEncodeByte b ++ uriEncodeBytes bs

/-- The ECMAScript `encodeURIComponent` builtin on a string value. -/
def encodeURIComponent (s : String) : String :=
  String.mk (uriEncodeBytes (utf8EncodeList s.data))

/-! ## JavaScript value model

Values produced by the `JSON.parse` builtin, together with the JavaScript
coercions the route handlers rely on (truthiness, string coercion,
`JSON.stringify`). Numbers are modelled as integers: no claim depends on
fractional values. Array-to-string coercion is the standard comma join
(the element-level `null`-to-empty special case of `Array.prototype.join`
is not modelled; no claim touches arrays). -/

/-- JSON values as returned by `JSON.parse`. -/
inductive Json where
  | null
  | bool (b : Bool)
  | num (n : Int)
  | str (s : String)
  | arr (elems : List Json)
  | obj (fields : List (String × Json))
deriving Inhabited

/-- Exactly the JSON value whose property reads throw a TypeError. -/
def Json.isNull : Json → Bool
  | .null => true
  | _ => false

/-- JavaScript truthiness of a possibly-undefined value (`none` is `undefined`). -/
def jsTruthy : Option Json → Bool
  | none => false
  | some .null => false
  | some (.bool b) => b
  | some (.num n) => decide (n ≠ 0)
  | some (.str s) => decide (s ≠ "")
  | some (.arr _) => true
  | some (.obj _) => true

/-- JavaScript truthiness of a possibly-undefined string value. -/
def jsTruthyStr : Option String → Bool
  | none => false
  | some s => decide (s ≠ "")

/-- Property read on a non-null JSON value: objects give the field (last
duplicate key wins, as `JSON.parse` keeps the last), primitives and arrays
give `undefined`. Reads on `null` throw and are handled at the call sites. -/
def Json.propOpt (v : Json) (p : String) : Option Json :=
  match v with
  | .obj fields => List.lookup p fields.reverse
  | _ => none

mutual

/-- JavaScript string coercion of a JSON value. -/
def jsToString : Json → String
  | .null => "null"
  | .bool true => "true"
  | .bool false => "false"
  | .num n => toString n
  | .str s => s
  | .arr xs => String.intercalate "," (jsToStringList xs)
  | .obj _ => "[object Object]"

/-- String coercion of each element of an array. -/
def jsToStringList : List Json → List String
  | [] => []
  | x :: xs => jsToString x :: jsToStringList xs

end

/-- String coercion of a possibly-undefined value (as `URLSearchParams.set` applies). -/
def jsToStringU : Option Json → String
  | none => "undefined"
  | some v => jsToString v

/-- Lowercase hexadecimal digit (as `JSON.stringify` uses in control escapes). -/
def hexDigitCharLower (n : Nat) : Char :=
  if n < 10 then Char.ofNat (48 + n) else Char.ofNat (87 + n)

/-- JSON string escape of one character, per `JSON.stringify`. -/
def jsonEscapeChar (c : Char) : String :=
  if c = '"' then "\\\""
  else if c = '\\' then "\\\\"
  else if c = '\x08' then "\\b"
  else if c = '\t' then "\\t"
  else if c = '\n' then "\\n"
  else if c = '\x0c' then "\\f"
  else if c = '\r' then "\\r"
  else if c.toNat < 0x20 then
    "\\u00" ++ String.mk [hexDigitCharLower (c.toNat / 16), hexDigitCharLower (c.toNat % 16)]
  else String.singleton c

/-- `JSON.stringify` of a string value. -/
def jsonStringifyStr (s : String) : String :=
  "\"" ++ String.join (s.data.map jsonEscapeChar) ++ "\""

mutual

/-- `JSON.stringify` of a JSON value. -/
def jsonStringify : Json → String
  | .null => "null"
  | .bool true => "true"
  | .bool false => "false"
  | .num n => toString n
  | .str s => jsonStringifyStr s
  | .arr xs => "[" ++ String.intercalate "," (jsonStringifyList xs) ++ "]"
  | .obj fs => "\x7b" ++ String.intercalate "," (jsonStringifyFields fs) ++ "\x7d"

/-- `JSON.stringify` of each element of an array. -/
def jsonStringifyList : List Json → List String
  | [] => []
  | x :: xs => jsonStringify x :: jsonStringifyList xs

/-- `JSON.stringify` of the fields of an object. -/
def jsonStringifyFields : List (String × Json) → List String
  | [] => []
  | (k, v) :: fs => (jsonStringifyStr k ++ ":" ++ jsonStringify v) :: jsonStringifyFields fs

end

/-- Template-literal interpolation of `JSON.stringify(x)` where `x` may be
`undefined`: `JSON.stringify(undefined)` is `undefined`, which interpolates
as the text `undefined`. -/
def jsonStringifyInterp : Option Json → String
  | none => "undefined"
  | some v => jsonStringify v

/-! ## PWA completion page (the HTML template literal in handleCallback) -/

/-- Template text before the interpolated `JSON.stringify(did)`. -/
def pwaHtmlSegA : String :=
  "<!DOCTYPE html>\n<html>\n<head>\n  <meta charset=\"utf-8\">\n  <meta name=\"viewport\" content=\"width=device-width, initial-scale=1\">\n  <title>Login Complete</title>\n  <style>\n    body \x7b\n      font-family: -apple-system, BlinkMacSystemFont, \x27Segoe UI\x27, Roboto, sans-serif;\n      display: flex;\n      align-items: center;\n      justify-content: center;\n      min-height: 100vh;\n      margin: 0;\n      background: #f5f5f5;\n    \x7d\n    .message \x7b\n      text-align: center;\n      padding: 2rem;\n      background: white;\n      border-radius: 8px;\n      box-shadow: 0 2px 8px rgba(0,0,0,0.1);\n    \x7d\n    .success-icon \x7b\n      width: 48px;\n      height: 48px;\n      background: #10b981;\n      border-radius: 50%;\n      display: flex;\n      align-items: center;\n      justify-content: center;\n      margin: 0 auto 1rem;\n    \x7d\n    .success-icon svg \x7b\n      width: 24px;\n      height: 24px;\n      fill: white;\n    \x7d\n  </style>\n</head>\n<body>\n  <div class=\"message\">\n    <div class=\"success-icon\">\n      <svg viewBox=\"0 0 24 24\"><path d=\"M9 16.17L4.83 12l-1.42 1.41L9 19 21 7l-1.41-1.41z\"/></svg>\n    </div>\n    <p>Login successful!</p>\n    <p style=\"color: #666; font-size: 14px;\">You can close this window.</p>\n  </div>\n  <script>\n    (function() \x7b\n      // Store success data in localStorage for the opener to read\n      var data = \x7b\n        type: \x27oauth-callback\x27,\n        success: true,\n        did: "

/-- Template text between the two interpolations. -/
def pwaHtmlSegB : String :=
  ",\n        handle: "

/-- Template text after the interpolated `JSON.stringify(state.handle)`. -/
def pwaHtmlSegC : String :=
  ",\n        timestamp: Date.now()\n      \x7d;\n      localStorage.setItem(\x27pwa-oauth-result\x27, JSON.stringify(data));\n\n      // Try postMessage first (works if opener is still available)\n      if (window.opener && !window.opener.closed) \x7b\n        try \x7b\n          window.opener.postMessage(data, \x27*\x27);\n        \x7d catch (e) \x7b\n          // Ignore cross-origin errors\n        \x7d\n      \x7d\n\n      // Close popup after a short delay\n      setTimeout(function() \x7b\n        window.close();\n      \x7d, 1500);\n    \x7d)();\n  </script>\n</body>\n</html>"

/-- The PWA completion page with the two `JSON.stringify` interpolation
results spliced in. -/
def pwaHtml (didJson handleJson : String) : String :=
  pwaHtmlSegA ++ didJson ++ pwaHtmlSegB ++ handleJson ++ pwaHtmlSegC

/-! ## Collaborator outcomes, responses and effects -/

/-- Error raised by the OAuth client during `restore` (the class check
`error instanceof NetworkError` is modelled by the `isNetworkError` flag). -/
structure ClientError where
  isNetworkError : Bool
  message : String
deriving Repr, DecidableEq

/-- Restored OAuth session (the fields of SessionInterface that the
handlers read; no claim inspects the `toJSON` output). -/
structure Session where
  did : String
  sessionHandle : Option String := none
deriving Repr, DecidableEq, Inhabited

/-- Observable effects a handler performs, in program order: storage calls,
session-manager calls, the OAuth-client authorize call, and warn/error
level log lines (debug/info logging is observability-only and not tracked). -/
inductive Effect where
  | restoreCall (did : String)
  | storageSet (key : String) (ttl : Nat)
  | storageDelete (key : String)
  | createSessionCall (did : String)
  | sealTokenCall (did : String)
  | authorizeCall (handle : String) (state : String) (scope : Option String)
      (prompt : Option String)
  | warnLog (msg : String)
  | errorLog (msg : String)
deriving Repr, DecidableEq

/-- HTTP response value: status plus the headers and body the handlers set. -/
structure Response where
  status : Nat
  location : Option String := none
  setCookie : Option String := none
  contentType : Option String := none
  body : Option String := none
deriving Repr, DecidableEq

/-! ## OAuth Session Store (src/sessions.ts) -/

/-- Embedding of `OAuthSessions.getOAuthSession` (`src/sessions.ts`, the
`getOAuthSession` method). Inputs: the outcome of
`this.oauthClient.restore(did)` (success value or thrown `ClientError`) and
whether `this.storage.delete` would throw during cleanup. Output: the
operation's outcome — a re-raised error or a returned value — together
with the effects performed. -/
def getOAuthSession (did : String) (restoreOutcome : Except ClientError (Option Session))
    (deleteThrows : Bool) : Except ClientError (Option Session) × List Effect :=
  match restoreOutcome with
  | .ok s => (.ok s, [.restoreCall did])
  | .error e =>
    if e.isNetworkError then
      (.error e, [.restoreCall did,
        .warnLog ("Network error restoring session for DID " ++ did ++ ":")])
    else
      (.ok none,
        [.restoreCall did,
          .warnLog ("Session unrecoverable for DID " ++ did ++ ", removing:"),
          .storageDelete ("session:" ++ did)] ++
        (if deleteThrows then
          [.errorLog ("Failed to clean up session for DID " ++ did ++ ":")]
        else []))

/-! ## Cookie session manager boundary -/

/-- Error types the cookie layer can report, as enumerated by the type
assertion in `getSessionFromRequest` (`src/routes.ts`). -/
inductive CookieErrType where
  | NO_COOKIE
  | INVALID_COOKIE
  | SESSION_EXPIRED
  | UNKNOWN
deriving Repr, DecidableEq

/-- Error object from the cookie layer. -/
structure CookieErr where
  errType : CookieErrType
  message : String
  details : Option String := none
deriving Repr, DecidableEq

/-- Payload of the session cookie that the handlers read (`data.did`). -/
structure SessionCookieData where
  did : String
deriving Repr, DecidableEq

/-- Result of `sessionManager.getSessionFromRequest` (the external cookie
manager): optional unsealed data, optional refreshed Set-Cookie header,
optional error. -/
structure CookieLayerResult where
  data : Option SessionCookieData := none
  setCookieHeader : Option String := none
  cookieError : Option CookieErr := none
deriving Repr, DecidableEq

/-- The truthiness test `sessionResult.data?.did` used by the handlers: a
usable subject id is a present, non-empty `did`. -/
def usableDid (r : CookieLayerResult) : Option String :=
  match r.data with
  | some d => if d.did ≠ "" then some d.did else none
  | none => none

/-- Structural test that the first character list leads the second (kernel-reducible). -/
def leadingMatch : List Char → List Char → Bool
  | [], _ => true
  | _ :: _, [] => false
  | c :: cs, d :: ds => c == d && leadingMatch cs ds

/-- The `String.prototype.startsWith` test. -/
def strStartsWith (s p : String) : Bool := leadingMatch p.data s.data

/-! ## Route/Flow Controller (src/routes.ts) -/

/-- Configuration destructured by `createRouteHandlers` (the fields the
handlers read; `undefined` optional fields are `none`). -/
structure RoutesConfig where
  sessionTtl : Nat
  mobileScheme : Option String := none
  scope : Option String := none
deriving Repr, DecidableEq

/-- Flow state built by handleLogin (the `OAuthState` object: optional
fields are present exactly when set). -/
structure OAuthState where
  handle : String
  timestamp : Int
  redirectPath : Option String := none
  mobile : Bool := false
  pwa : Bool := false
deriving Repr, DecidableEq

/-- `JSON.stringify` of the `OAuthState` object with its insertion-ordered
keys: `handle`, `timestamp`, then `redirectPath`/`mobile`/`pwa` when set. -/
def stringifyOAuthState (st : OAuthState) : String :=
  "\x7b\"handle\":" ++ jsonStringifyStr st.handle ++ ",\"timestamp\":" ++ toString st.timestamp
    ++ (match st.redirectPath with
        | some r => ",\"redirectPath\":" ++ jsonStringifyStr r
        | none => "")
    ++ (if st.mobile then ",\"mobile\":true" else "")
    ++ (if st.pwa then ",\"pwa\":true" else "")
    ++ "\x7d"

/-- Query parameters of a login request (`searchParams.get` results;
`none` is an absent parameter). -/
structure LoginQuery where
  handle : Option String := none
  redirect : Option String := none
  mobile : Option String := none
  pwa : Option String := none
  prompt : Option String := none
deriving Repr, DecidableEq

/-- Collaborator outcomes a login request can observe: the handle-grammar
validator, the OAuth client's `authorize` (URL or thrown error message),
and `Date.now()`. -/
structure LoginEnv where
  isValidHandle : String → Bool
  authorize : String → String → Option String → Option String → Except String String
  now : Int

/-- The spread `...(prompt ? { prompt } : {})` of `handleLogin`: the
`prompt` option is present exactly when the query value is truthy. -/
def loginPrompt (q : LoginQuery) : Option String :=
  match q.prompt with
  | some p => if p ≠ "" then some p else none
  | none => none

/-- Embedding of `handleLogin` (`src/routes.ts`). Returns the response and
the effects in program order (an invalid-redirect warning precedes the
authorize call). -/
def handleLogin (cfg : RoutesConfig) (env : LoginEnv) (q : LoginQuery) :
    Response × List Effect :=
  if ¬ jsTruthyStr q.handle then
    ({ status := 400, body := some "Invalid handle" }, [])
  else
    let h := q.handle.getD ""
    if strStartsWith h "https://" = false ∧ env.isValidHandle h = false then
      ({ status := 400, body := some "Invalid handle format" }, [])
    else
      let redirectInfo : Option String × List Effect :=
        match q.redirect with
        | some r =>
          if r ≠ "" then
            if strStartsWith r "/" = true ∧ strStartsWith r "//" = false then (some r, [])
            else (none, [.warnLog ("Invalid redirect path ignored: " ++ r)])
          else (none, [])
        | none => (none, [])
      let st : OAuthState :=
        { handle := h, timestamp := env.now, redirectPath := redirectInfo.1,
          mobile := q.mobile == some "true", pwa := q.pwa == some "true" }
      let stateStr := stringifyOAuthState st
      match env.authorize h stateStr cfg.scope (loginPrompt q) with
      | .ok url =>
        ({ status := 302, location := some url },
          redirectInfo.2 ++ [.authorizeCall h stateStr cfg.scope (loginPrompt q)])
      | .error msg =>
        ({ status := 400, body := some msg },
          redirectInfo.2 ++ [.authorizeCall h stateStr cfg.scope (loginPrompt q)])

/-- Error thrown by the OAuth client's `callback` code exchange; the
`instanceof IssuerMismatchError` check is the `isIssuerMismatch` flag and
`error.handle` is `errHandle` (`none` for undefined). -/
structure CallbackFailure where
  isIssuerMismatch : Bool
  errHandle : Option String := none
  message : String
deriving Repr, DecidableEq

/-- Collaborator outcomes a callback request can observe: the `JSON.parse`
builtin, the code exchange, cookie minting, token sealing, `Date.now()`. -/
structure CallbackEnv where
  jsonParse : String → Except Unit Json
  exchange : Except CallbackFailure Session
  createSession : String → Int → String
  sealToken : String → String
  now : Int

/-- Mobile callback URL: `new URL(mobileScheme)` with `session_token`,
`did` and `handle` set via `searchParams` and serialized back (modelled
for schemes without an existing query or fragment, as the configured
`scheme://host` form is). -/
def mobileCallbackLocation (scheme token did handleStr : String) : String :=
  scheme ++ "?session_token=" ++ formUrlEncode token ++ "&did=" ++ formUrlEncode did
    ++ "&handle=" ++ formUrlEncode handleStr

/-- Embedding of `handleCallback` (`src/routes.ts`). The parsed state is an
arbitrary JSON value; reading a property of a parsed `null` throws a
TypeError that the handler's outer catch turns into a 400, after the
storage write and cookie mint have already happened. -/
def handleCallback (cfg : RoutesConfig) (env : CallbackEnv)
    (code stateParam : Option String) : Response × List Effect :=
  if ¬ (jsTruthyStr code ∧ jsTruthyStr stateParam) then
    ({ status := 400, body := some "Missing code or state parameters" }, [])
  else
    match env.jsonParse (stateParam.getD "") with
    | .error _ => ({ status := 400, body := some "Invalid state parameter" }, [])
    | .ok state =>
      match env.exchange with
      | .error e =>
        if e.isIssuerMismatch ∧ jsTruthyStr e.errHandle then
          ({ status := 302,
             location := some ("/login?handle=" ++ encodeURIComponent (e.errHandle.getD "")) },
            [])
        else
          ({ status := 400, body := some ("OAuth callback failed: " ++ e.message) }, [])
      | .ok sess =>
        let did := sess.did
        let cookie := env.createSession did env.now
        let eff0 : List Effect :=
          [.storageSet ("session:" ++ did) cfg.sessionTtl, .createSessionCall did]
        if state.isNull then
          ({ status := 400,
             body := some
               "OAuth callback failed: Cannot read properties of null (reading \x27mobile\x27)" },
            eff0)
        else if jsTruthy (state.propOpt "mobile") ∧ jsTruthyStr cfg.mobileScheme then
          let token := env.sealToken did
          ({ status := 302,
             location := some (mobileCallbackLocation (cfg.mobileScheme.getD "") token did
               (jsToStringU (state.propOpt "handle"))),
             setCookie := some cookie },
            eff0 ++ [.sealTokenCall did])
        else if jsTruthy (state.propOpt "pwa") then
          ({ status := 200, contentType := some "text/html; charset=utf-8",
             setCookie := some cookie,
             body := some (pwaHtml (jsonStringifyStr did)
               (jsonStringifyInterp (state.propOpt "handle"))) },
            eff0)
        else
          ({ status := 302,
             location := some (if jsTruthy (state.propOpt "redirectPath")
               then jsToStringU (state.propOpt "redirectPath") else "/"),
             setCookie := some cookie },
            eff0)

/-- Collaborator outcomes a logout request can observe: the cookie read
(which can throw), whether the storage delete throws, and the clear-cookie
header the session manager produces. -/
structure LogoutEnv where
  cookieRead : Except Unit CookieLayerResult
  deleteThrows : Bool
  clearCookie : String

/-- Embedding of `handleLogout` (`src/routes.ts`): any throw from the
cookie read or the storage delete lands in the catch, which builds the 500
JSON response without a Set-Cookie header. -/
def handleLogout (env : LogoutEnv) : Response × List Effect :=
  match env.cookieRead with
  | .error _ =>
    ({ status := 500, contentType := some "application/json",
       body := some "\x7b\"success\":false,\"error\":\"Logout failed\"\x7d" }, [])
  | .ok r =>
    match usableDid r with
    | some did =>
      if env.deleteThrows then
        ({ status := 500, contentType := some "application/json",
           body := some "\x7b\"success\":false,\"error\":\"Logout failed\"\x7d" },
          [.storageDelete ("session:" ++ did)])
      else
        ({ status := 200, contentType := some "application/json",
           setCookie := some env.clearCookie,
           body := some "\x7b\"success\":true\x7d" },
          [.storageDelete ("session:" ++ did)])
    | none =>
      ({ status := 200, contentType := some "application/json",
         setCookie := some env.clearCookie,
         body := some "\x7b\"success\":true\x7d" }, [])

/-- Error types of the library's session-result error. -/
inductive ResultErrType where
  | NO_COOKIE
  | INVALID_COOKIE
  | SESSION_EXPIRED
  | OAUTH_ERROR
  | UNKNOWN
deriving Repr, DecidableEq

/-- The TypeScript `as` cast applied to the cookie layer's error type. -/
def castCookieErrType : CookieErrType → ResultErrType
  | .NO_COOKIE => .NO_COOKIE
  | .INVALID_COOKIE => .INVALID_COOKIE
  | .SESSION_EXPIRED => .SESSION_EXPIRED
  | .UNKNOWN => .UNKNOWN

/-- The `details` payload attached to a session-result error. -/
inductive ErrDetails where
  | cookieDetails (s : String)
  | restoreError (e : ClientError)
deriving Repr, DecidableEq

/-- Error object of an `OAuthSessionFromRequestResult`. -/
structure ResultErr where
  errType : ResultErrType
  message : String
  details : Option ErrDetails := none
deriving Repr, DecidableEq

/-- The `OAuthSessionFromRequestResult` shape. -/
structure SessionFromRequestResult where
  session : Option Session := none
  setCookieHeader : Option String := none
  resultError : Option ResultErr := none
deriving Repr, DecidableEq

/-- Embedding of `getSessionFromRequest` (`src/routes.ts`): reads the
cookie-layer result, then consults the Session Store (`getOAuthSession`)
only when a usable subject id is present; the function is total — every
outcome, including a re-raised store error, becomes a result value. -/
def getSessionFromRequest (cookieResult : CookieLayerResult)
    (restoreOutcome : Except ClientError (Option Session)) (deleteThrows : Bool) :
    SessionFromRequestResult × List Effect :=
  match usableDid cookieResult with
  | none =>
    ({ session := none,
       resultError := some (match cookieResult.cookieError with
         | some e =>
           { errType := castCookieErrType e.errType, message := e.message,
             details := e.details.map ErrDetails.cookieDetails }
         | none => { errType := .NO_COOKIE, message := "No session found" }) }, [])
  | some did =>
    let r := getOAuthSession did restoreOutcome deleteThrows
    match r.1 with
    | .ok none =>
      ({ session := none, setCookieHeader := cookieResult.setCookieHeader,
         resultError := some
           { errType := .SESSION_EXPIRED,
             message := "OAuth session not found in storage" } }, r.2)
    | .ok (some s) =>
      ({ session := some s, setCookieHeader := cookieResult.setCookieHeader }, r.2)
    | .error e =>
      ({ session := none, setCookieHeader := cookieResult.setCookieHeader,
         resultError := some
           { errType := .OAUTH_ERROR, message := e.message,
             details := some (.restoreError e) } }, r.2)

/-! ## Composition root (src/oauth.ts) -/

/-- The `ATProtoOAuthConfig` surface (the storage object is abstract; only
its presence matters to validation). -/
structure OAuthConfig where
  baseUrl : String
  appName : String
  cookieSecret : String
  scope : Option String := none
  sessionTtl : Option Nat := none
  mobileScheme : Option String := none
  logoUri : Option String := none
  policyUri : Option String := none
  storagePresent : Bool := true
deriving Repr, DecidableEq

/-- Default session TTL: 7 days in seconds. -/
def DEFAULT_SESSION_TTL : Nat := 60 * 60 * 24 * 7

/-- Default mobile callback scheme. -/
def DEFAULT_MOBILE_SCHEME : String := "app://auth-callback"

/-- Eager configuration validation of `createATProtoOAuth` (each check in
source order; a thrown Error is the message). -/
def validateATProtoOAuthConfig (cfg : OAuthConfig) : Except String Unit :=
  if cfg.baseUrl = "" then .error "baseUrl is required"
  else if cfg.appName = "" then .error "appName is required"
  else if cfg.cookieSecret = "" then .error "cookieSecret is required"
  else if cfg.cookieSecret.length < 32 then
    .error "cookieSecret must be at least 32 characters for secure encryption"
  else if cfg.storagePresent = false then .error "storage is required"
  else .ok ()

/-- The base-URL normalization `config.baseUrl.replace(/\/$/, "")`: strip
one trailing slash. -/
def stripTrailingSlash (s : String) : String :=
  match s.data.getLast? with
  | some '/' => String.mk s.data.dropLast
  | _ => s

/-- The `RouteHandlersConfig` object literal that `createATProtoOAuth`
passes to `createRouteHandlers` (`src/oauth.ts`): `sessionTtl` defaulted
with `??`, `mobileScheme` defaulted with `??` and always passed; the
literal does not carry a `scope` field, so the handlers see `scope`
as `undefined`. -/
def instanceRoutesConfig (cfg : OAuthConfig) : RoutesConfig :=
  { sessionTtl := cfg.sessionTtl.getD DEFAULT_SESSION_TTL
    mobileScheme := some (cfg.mobileScheme.getD DEFAULT_MOBILE_SCHEME)
    scope := none }

/-! ## Client Metadata Generator (src/client-metadata.ts)

The `new URL(...)` builtin is modelled by `parseUrl`, a WHATWG-style parse
of `scheme://[userinfo@]host[:port][/path...]` for the special schemes
(http, https, ws, wss, ftp): scheme and host are ASCII-lowercased,
userinfo is dropped, a bracketed IPv6 host keeps its brackets, the port is
digit-parsed, bounds-checked and dropped when it equals the scheme
default. Hosts needing percent-decoding or IPv4 dotted-quad normalization
and non-special schemes are outside the modelled fragment. -/

/-- Parsed URL components the metadata generator reads. -/
structure UrlParts where
  scheme : String
  hostname : String
  port : Option String := none
deriving Repr, DecidableEq

/-- Split a character list at the literal `://`. -/
def splitOnSchemeSep : List Char → Option (List Char × List Char)
  | [] => none
  | ':' :: '/' :: '/' :: rest => some ([], rest)
  | c :: rest => (splitOnSchemeSep rest).map (fun p => (c :: p.1, p.2))

/-- Characters allowed after a scheme's leading letter. -/
def isSchemeChar (c : Char) : Bool :=
  c.isAlphanum ∨ c = '+' ∨ c = '-' ∨ c = '.'

/-- Valid scheme: a letter followed by scheme characters. -/
def isValidScheme : List Char → Bool
  | [] => false
  | c :: rest => c.isAlpha ∧ rest.all isSchemeChar

/-- ASCII lowercasing (scheme and host normalization). -/
def asciiLower (c : Char) : Char :=
  if 'A' ≤ c ∧ c ≤ 'Z' then Char.ofNat (c.toNat + 32) else c

/-- The special schemes of the modelled URL fragment. -/
def specialSchemes : List String := ["http", "https", "ws", "wss", "ftp"]

/-- Default port of a special scheme. -/
def defaultPort (scheme : String) : Option Nat :=
  if scheme = "http" ∨ scheme = "ws" then some 80
  else if scheme = "https" ∨ scheme = "wss" then some 443
  else if scheme = "ftp" then some 21
  else none

/-- The authority: everything before the first `/`, `?` or `#`. -/
def takeAuthority (l : List Char) : List Char :=
  l.takeWhile (fun c => ¬ (c = '/' ∨ c = '?' ∨ c = '#'))

/-- Drop userinfo: keep what follows the last `@`. -/
def afterLastAt (l : List Char) : List Char :=
  l.foldl (fun acc c => if c = '@' then [] else acc ++ [c]) []

/-- Split at the first occurrence of a separator character. -/
def splitFirstOn (sep : Char) : List Char → Option (List Char × List Char)
  | [] => none
  | c :: rest =>
    if c = sep then some ([], rest)
    else (splitFirstOn sep rest).map (fun p => (c :: p.1, p.2))

/-- Split the authority into host characters and optional port characters;
`none` for hosts the URL standard rejects (unbracketed or doubled colon). -/
def splitHostPort (l : List Char) : Option (List Char × Option (List Char)) :=
  match l with
  | '[' :: rest =>
    match splitFirstOn ']' rest with
    | some (inner, after) =>
      match after with
      | [] => some ('[' :: inner ++ [']'], none)
      | ':' :: p => some ('[' :: inner ++ [']'], some p)
      | _ => none
    | none => none
  | _ =>
    match splitFirstOn ':' l with
    | none => some (l, none)
    | some (h, p) => if p.contains ':' then none else some (h, some p)

/-- Digit string to number. -/
def digitsToNat (l : List Char) : Nat :=
  l.foldl (fun a c => a * 10 + (c.toNat - 48)) 0

/-- Port characters to a normalized port: `some none` when empty (no
port), `none` when non-numeric or out of range. -/
def parsePort (l : List Char) : Option (Option Nat) :=
  if l = [] then some none
  else if l.all Char.isDigit then
    let n := digitsToNat l
    if n < 65536 then some (some n) else none
  else none

/-- The modelled `new URL(s)`: components or `none` when the constructor
would throw. -/
def parseUrl (s : String) : Option UrlParts :=
  match splitOnSchemeSep s.data with
  | none => none
  | some (schemeChars, rest) =>
    if isValidScheme schemeChars then
      let scheme := String.mk (schemeChars.map asciiLower)
      if specialSchemes.contains scheme then
        let auth := afterLastAt (takeAuthority rest)
        match splitHostPort auth with
        | some (hostChars, portChars) =>
          if hostChars = [] then none
          else
            let host := String.mk (hostChars.map asciiLower)
            match portChars with
            | none => some { scheme := scheme, hostname := host }
            | some pc =>
              match parsePort pc with
              | some none => some { scheme := scheme, hostname := host }
              | some (some n) =>
                if defaultPort scheme = some n then
                  some { scheme := scheme, hostname := host }
                else
                  some { scheme := scheme, hostname := host, port := some (toString n) }
              | none => none
        | none => none
      else none
    else none

/-- Embedding of `isLoopbackUrl` (`src/client-metadata.ts`): parse and
compare the hostname against the loopback literals (a parse failure is
caught and reported as not-loopback). -/
def isLoopbackUrl (url : String) : Bool :=
  match parseUrl url with
  | some u =>
    u.hostname = "localhost" ∨ u.hostname = "127.0.0.1" ∨ u.hostname = "[::1]" ∨
      u.hostname = "::1"
  | none => false

/-- Serialization of an optional port into an origin. -/
def portSuffix : Option String → String
  | none => ""
  | some p => ":" ++ p

/-- Embedding of `buildLoopbackRedirectUri` (`src/client-metadata.ts`):
re-parse the base URL, set the hostname to `127.0.0.1`, and append
`/oauth/callback` to the origin (the unreachable parse-failure arm — the
source would have thrown in `isLoopbackUrl` already — gives `""`). -/
def buildLoopbackRedirectUri (baseUrl : String) : String :=
  match parseUrl baseUrl with
  | some u => u.scheme ++ "://127.0.0.1" ++ portSuffix u.port ++ "/oauth/callback"
  | none => ""

/-- Embedding of `buildLoopbackClientId` (`src/client-metadata.ts`):
`http://localhost` with `redirect_uri` and `scope` as
`URLSearchParams.toString`-serialized parameters. -/
def buildLoopbackClientId (redirectUri scope : String) : String :=
  "http://localhost?redirect_uri=" ++ formUrlEncode redirectUri ++ "&scope="
    ++ formUrlEncode scope

/-- The generated client metadata document. -/
structure ClientMetadata where
  client_name : String
  client_id : String
  client_uri : String
  redirect_uris : List String
  scope : String
  grant_types : List String
  response_types : List String
  application_type : String
  token_endpoint_auth_method : String
  dpop_bound_access_tokens : Bool
  logo_uri : Option String := none
  policy_uri : Option String := none
deriving Repr, DecidableEq

/-- Truthiness-guarded optional field (`if (config.logoUri)`). -/
def truthyOpt : Option String → Option String
  | some s => if s ≠ "" then some s else none
  | none => none

/-- The scope binding `config.scope || "atproto transition:generic"` of
`generateClientMetadata` (an empty configured scope is falsy). -/
def resolvedScope (config : OAuthConfig) : String :=
  match config.scope with
  | some s => if s ≠ "" then s else "atproto transition:generic"
  | none => "atproto transition:generic"

/-- Embedding of `generateClientMetadata` (`src/client-metadata.ts`). -/
def generateClientMetadata (config : OAuthConfig) : ClientMetadata :=
  let baseUrl := stripTrailingSlash config.baseUrl
  let scope := resolvedScope config
  let loopback := isLoopbackUrl baseUrl
  let redirectUri :=
    if loopback then buildLoopbackRedirectUri baseUrl else baseUrl ++ "/oauth/callback"
  let clientId :=
    if loopback then buildLoopbackClientId redirectUri scope
    else baseUrl ++ "/oauth-client-metadata.json"
  { client_name := config.appName
    client_id := clientId
    client_uri := baseUrl
    redirect_uris := [redirectUri]
    scope := scope
    grant_types := ["authorization_code", "refresh_token"]
    response_types := ["code"]
    application_type := "web"
    token_endpoint_auth_method := "none"
    dpop_bound_access_tokens := true
    logo_uri := truthyOpt config.logoUri
    policy_uri := truthyOpt config.policyUri }

/-! ## Shared concrete examples used by witnesses and counterexamples -/

/-- A routes configuration as built by the public constructor with defaults. -/
def egCfg : RoutesConfig :=
  { sessionTtl := 604800, mobileScheme := some "app://auth-callback", scope := none }

/-- A restored OAuth session for the test subject. -/
def egSession : Session :=
  { did := "did:plc:test123", sessionHandle := some "alice.bsky.social" }

/-- A callback environment whose `JSON.parse` returns the given state for
the literal state string `st`, with a successful code exchange. -/
def egEnvWith (state : Json) : CallbackEnv :=
  { jsonParse := fun s => if s = "st" then .ok state else .error ()
    exchange := .ok egSession
    createSession := fun _ _ => "sid=sealedcookie"
    sealToken := fun _ => "sealedtoken"
    now := 0 }

/-- A parsed state for a web flow with a stored redirect path. -/
def egStateWeb : Json :=
  .obj [("handle", .str "alice.bsky.social"), ("timestamp", .num 1700000000000),
    ("redirectPath", .str "/dashboard")]

/-- A parsed state with the mobile flag set. -/
def egStateMobile : Json :=
  .obj [("handle", .str "alice.bsky.social"), ("timestamp", .num 1700000000000),
    ("mobile", .bool true)]

/-! ## C1 — Session Store failure policy -/

/-- C1: when the OAuth client's restore throws, `OAuthSessions.getOAuthSession`
re-raises a NetworkError unchanged (same error value, no storage access),
and for every other error class it returns null with a delete of
`session:<did>` among its storage operations — returning null whether or
not that delete itself throws. -/
theorem c1_getOAuthSession_failure_policy (did : String) (e : ClientError) (dt : Bool) :
    (e.isNetworkError = true →
      getOAuthSession did (.error e) dt =
        (.error e, [.restoreCall did,
          .warnLog ("Network error restoring session for DID " ++ did ++ ":")])) ∧
    (e.isNetworkError = false →
      (getOAuthSession did (.error e) dt).1 = .ok none ∧
        Effect.storageDelete ("session:" ++ did) ∈ (getOAuthSession did (.error e) dt).2) := by
  constructor
  · intro h
    simp [getOAuthSession, h]
  · intro h
    simp [getOAuthSession, h]

/-- Closed instance of the C1 theorem: a network error from restore is
re-raised as-is, and a non-network error yields null with the storage key
deleted even though the delete throws. -/
theorem c1_getOAuthSession_failure_policy_witness :
    (getOAuthSession "did:plc:test123" (.error { isNetworkError := true, message := "Connection refused" }) false).1 =
      .error { isNetworkError := true, message := "Connection refused" } ∧
    (getOAuthSession "did:plc:test123" (.error { isNetworkError := false, message := "Refresh token has expired" }) true).1 =
      .ok none ∧
    Effect.storageDelete "session:did:plc:test123" ∈
      (getOAuthSession "did:plc:test123" (.error { isNetworkError := false, message := "Refresh token has expired" }) true).2 := by
  refine ⟨?_, ?_, ?_⟩
  · have h := (c1_getOAuthSession_failure_policy "did:plc:test123"
      { isNetworkError := true, message := "Connection refused" } false).1 rfl
    rw [h]
  · exact ((c1_getOAuthSession_failure_policy "did:plc:test123"
      { isNetworkError := false, message := "Refresh token has expired" } true).2 rfl).1
  · exact ((c1_getOAuthSession_failure_policy "did:plc:test123"
      { isNetworkError := false, message := "Refresh token has expired" } true).2 rfl).2

/-! ## C2 — callback success dispatch -/

/-- C2: on a successful code exchange, `handleCallback` first persists the
OAuth session under `session:<did>` with the configured TTL and mints the
session cookie, and then dispatches by precedence: mobile (flag plus a
truthy configured scheme) gives a 302 to the scheme carrying
`session_token`, `did` and `handle` query parameters with the cookie set;
otherwise the pwa flag gives a 200 `text/html` page whose body is the
template with exactly the JSON of the did and of the state handle spliced
in (a function of no token) and the cookie set; otherwise a 302 to the
stored redirect path, or `/` if none is set, with the cookie set. -/
theorem c2_handleCallback_success_dispatch (cfg : RoutesConfig) (env : CallbackEnv)
    (c sp : String) (hc : c ≠ "") (hsp : sp ≠ "")
    (state : Json) (hparse : env.jsonParse sp = .ok state)
    (sess : Session) (hex : env.exchange = .ok sess)
    (hnn : state.isNull = false) :
    ((handleCallback cfg env (some c) (some sp)).2.take 2 =
        [.storageSet ("session:" ++ sess.did) cfg.sessionTtl, .createSessionCall sess.did]) ∧
    (jsTruthy (state.propOpt "mobile") = true → jsTruthyStr cfg.mobileScheme = true →
      (handleCallback cfg env (some c) (some sp)).1 =
        { status := 302,
          location := some (mobileCallbackLocation (cfg.mobileScheme.getD "")
            (env.sealToken sess.did) sess.did (jsToStringU (state.propOpt "handle"))),
          setCookie := some (env.createSession sess.did env.now) }) ∧
    (¬ (jsTruthy (state.propOpt "mobile") = true ∧ jsTruthyStr cfg.mobileScheme = true) →
      jsTruthy (state.propOpt "pwa") = true →
      (handleCallback cfg env (some c) (some sp)).1 =
        { status := 200, contentType := some "text/html; charset=utf-8",
          setCookie := some (env.createSession sess.did env.now),
          body := some (pwaHtml (jsonStringifyStr sess.did)
            (jsonStringifyInterp (state.propOpt "handle"))) }) ∧
    (¬ (jsTruthy (state.propOpt "mobile") = true ∧ jsTruthyStr cfg.mobileScheme = true) →
      jsTruthy (state.propOpt "pwa") = false →
      (handleCallback cfg env (some c) (some sp)).1 =
        { status := 302,
          location := some (if jsTruthy (state.propOpt "redirectPath") = true
            then jsToStringU (state.propOpt "redirectPath") else "/"),
          setCookie := some (env.createSession sess.did env.now) }) ∧
    (∀ a b : String, pwaHtml a b = pwaHtmlSegA ++ a ++ pwaHtmlSegB ++ b ++ pwaHtmlSegC) := by
  have hct : jsTruthyStr (some c) = true := by simp [jsTruthyStr, hc]
  have hst : jsTruthyStr (some sp) = true := by simp [jsTruthyStr, hsp]
  refine ⟨?_, ?_, ?_, ?_, fun a b => rfl⟩
  · by_cases hm : jsTruthy (state.propOpt "mobile") = true ∧ jsTruthyStr cfg.mobileScheme = true
    · simp [handleCallback, hct, hst, hparse, hex, hnn, hm.1, hm.2]
    · by_cases hp : jsTruthy (state.propOpt "pwa") = true
      · simp [handleCallback, hct, hst, hparse, hex, hnn, hm, hp]
      · simp [handleCallback, hct, hst, hparse, hex, hnn, hm, hp]
  · intro hm hs
    simp [handleCallback, hct, hst, hparse, hex, hnn, hm, hs]
  · intro hm hp
    simp [handleCallback, hct, hst, hparse, hex, hnn, hm, hp]
  · intro hm hp
    simp [handleCallback, hct, hst, hparse, hex, hnn, hm, hp]

/-- Closed instance of the C2 theorem: a concrete web-flow callback
persists first, then redirects to the stored `/dashboard` path with the
cookie set. -/
theorem c2_handleCallback_success_dispatch_witness :
    ((handleCallback egCfg (egEnvWith egStateWeb) (some "authcode") (some "st")).2.take 2 =
      [.storageSet "session:did:plc:test123" 604800, .createSessionCall "did:plc:test123"]) ∧
    (handleCallback egCfg (egEnvWith egStateWeb) (some "authcode") (some "st")).1 =
      { status := 302, location := some "/dashboard", setCookie := some "sid=sealedcookie" } := by
  have h := c2_handleCallback_success_dispatch egCfg (egEnvWith egStateWeb) "authcode" "st"
    (by decide) (by decide) egStateWeb rfl egSession rfl rfl
  refine ⟨h.1, ?_⟩
  have hweb := h.2.2.2.1 (by decide) (by decide)
  rw [hweb]
  rfl

/-! ## C3 — getSessionFromRequest result shapes -/

/-- A cookie-layer result reporting an expired session cookie (no usable
subject id, error type SESSION_EXPIRED) — one of the four types the
handler's own cast enumerates for the cookie layer. -/
def egCookieExpired : CookieLayerResult :=
  { data := none,
    cookieError := some { errType := .SESSION_EXPIRED, message := "Session cookie expired" } }

/-- C3 counterexample: on a request with no usable cookie, the returned
error type is whatever the cookie layer reported — here SESSION_EXPIRED —
not necessarily NO_COOKIE or INVALID_COOKIE as the claim states. -/
theorem c3_counterexample :
    (getSessionFromRequest egCookieExpired (.ok none) false).1 =
      { session := none, setCookieHeader := none,
        resultError := some
          { errType := .SESSION_EXPIRED, message := "Session cookie expired" } } ∧
    ((getSessionFromRequest egCookieExpired (.ok none) false).1.resultError.map
        ResultErr.errType ≠ some .NO_COOKIE ∧
      (getSessionFromRequest egCookieExpired (.ok none) false).1.resultError.map
        ResultErr.errType ≠ some .INVALID_COOKIE) := by
  refine ⟨rfl, by decide, by decide⟩

/-- C3 (amended): `getSessionFromRequest` is a total function returning one
of these shapes: with no usable cookie, a null session whose error is the
cookie layer's own error — any of the four cast types — or NO_COOKIE "No
session found" when the cookie layer reported none, with no storage or
OAuth-client access; with a usable subject, a null restore or a
store-absorbed non-network error gives SESSION_EXPIRED with the refreshed
cookie header forwarded, a store-re-raised network error gives OAUTH_ERROR
carrying the underlying message and error as details, and a successful
restore gives the session plus the header and no error. -/
theorem c3_session_from_request_shapes (cr : CookieLayerResult)
    (ro : Except ClientError (Option Session)) (dt : Bool) :
    (usableDid cr = none →
      (getSessionFromRequest cr ro dt).2 = [] ∧
      (getSessionFromRequest cr ro dt).1.session = none ∧
      (getSessionFromRequest cr ro dt).1.setCookieHeader = none ∧
      (cr.cookieError = none →
        (getSessionFromRequest cr ro dt).1.resultError =
          some { errType := .NO_COOKIE, message := "No session found" }) ∧
      (∀ e, cr.cookieError = some e →
        (getSessionFromRequest cr ro dt).1.resultError =
          some { errType := castCookieErrType e.errType, message := e.message,
                 details := e.details.map ErrDetails.cookieDetails })) ∧
    (∀ did, usableDid cr = some did →
      (∀ s, ro = .ok (some s) →
        (getSessionFromRequest cr ro dt).1 =
          { session := some s, setCookieHeader := cr.setCookieHeader, resultError := none }) ∧
      (ro = .ok none →
        (getSessionFromRequest cr ro dt).1 =
          { session := none, setCookieHeader := cr.setCookieHeader,
            resultError := some
              { errType := .SESSION_EXPIRED,
                message := "OAuth session not found in storage" } }) ∧
      (∀ e, ro = .error e → e.isNetworkError = false →
        (getSessionFromRequest cr ro dt).1 =
          { session := none, setCookieHeader := cr.setCookieHeader,
            resultError := some
              { errType := .SESSION_EXPIRED,
                message := "OAuth session not found in storage" } }) ∧
      (∀ e, ro = .error e → e.isNetworkError = true →
        (getSessionFromRequest cr ro dt).1 =
          { session := none, setCookieHeader := cr.setCookieHeader,
            resultError := some
              { errType := .OAUTH_ERROR, message := e.message,
                details := some (.restoreError e) } })) := by
  constructor
  · intro hnone
    rcases hce : cr.cookieError with _ | e
    · simp [getSessionFromRequest, hnone, hce]
    · simp [getSessionFromRequest, hnone, hce]
  · intro did hdid
    refine ⟨?_, ?_, ?_, ?_⟩
    · intro s hro
      simp [getSessionFromRequest, hdid, hro, getOAuthSession]
    · intro hro
      simp [getSessionFromRequest, hdid, hro, getOAuthSession]
    · intro e hro hnet
      simp [getSessionFromRequest, hdid, hro, getOAuthSession, hnet]
    · intro e hro hnet
      simp [getSessionFromRequest, hdid, hro, getOAuthSession, hnet]

/-- Closed instance of the C3 amended theorem: a no-cookie request gets
NO_COOKIE with no store access, and a usable cookie whose restore
re-raises a network error gets OAUTH_ERROR with the message attached. -/
theorem c3_session_from_request_shapes_witness :
    (getSessionFromRequest { data := none } (.ok none) false).2 = [] ∧
    (getSessionFromRequest { data := none } (.ok none) false).1.resultError =
      some { errType := .NO_COOKIE, message := "No session found" } ∧
    (getSessionFromRequest { data := some { did := "did:plc:test123" } }
        (.error { isNetworkError := true, message := "Connection refused" }) false).1 =
      { session := none, setCookieHeader := none,
        resultError := some
          { errType := .OAUTH_ERROR, message := "Connection refused",
            details := some (.restoreError
              { isNetworkError := true, message := "Connection refused" }) } } := by
  refine ⟨?_, ?_, ?_⟩
  · exact ((c3_session_from_request_shapes { data := none } (.ok none) false).1 rfl).1
  · exact ((c3_session_from_request_shapes { data := none } (.ok none) false).1 rfl).2.2.2.1 rfl
  · exact (((c3_session_from_request_shapes { data := some { did := "did:plc:test123" } }
      (.error { isNetworkError := true, message := "Connection refused" }) false).2
      "did:plc:test123" (by decide)).2.2.2
      { isNetworkError := true, message := "Connection refused" } rfl rfl)

/-! ## C4 — callback parameter validation -/

/-- A callback environment whose `JSON.parse` oracle accepts exactly the
two-character state string consisting of an open and a close brace —
valid JSON denoting an object with no fields, as `JSON.parse` accepts. -/
def egEnvEmptyObjState : CallbackEnv :=
  { jsonParse := fun s => if s = "\x7b\x7d" then .ok (.obj []) else .error ()
    exchange := .ok egSession
    createSession := fun _ _ => "sid=sealedcookie"
    sealToken := fun _ => "sealedtoken"
    now := 0 }

/-- C4 counterexample: a forged or truncated state that happens to be
syntactically valid JSON with none of the flow fields — the literal empty
object — is not rejected: the callback completes as the default
no-redirect, non-mobile, non-pwa web flow (302 to `/`, cookie set),
refuting the claim that such a state is never treated as a valid empty
flow. -/
theorem c4_counterexample :
    handleCallback egCfg egEnvEmptyObjState (some "authcode") (some "\x7b\x7d") =
      ({ status := 302, location := some "/", setCookie := some "sid=sealedcookie" },
        [.storageSet "session:did:plc:test123" 604800,
          .createSessionCall "did:plc:test123"]) := by
  rfl

/-- C4 (amended): `handleCallback` returns 400 "Missing code or state
parameters" when the `code` or `state` parameter is absent (or falsy), and
400 "Invalid state parameter" exactly when the state is present but not
syntactically valid JSON; a state that parses as JSON but lacks the flow
fields is accepted and proceeds (degrading to the default web flow when no
flags are present). -/
theorem c4_callback_input_validation (cfg : RoutesConfig) (env : CallbackEnv)
    (code stateParam : Option String) :
    (jsTruthyStr code = false ∨ jsTruthyStr stateParam = false →
      handleCallback cfg env code stateParam =
        ({ status := 400, body := some "Missing code or state parameters" }, [])) ∧
    (∀ s, stateParam = some s → jsTruthyStr code = true → s ≠ "" →
      env.jsonParse s = .error () →
      handleCallback cfg env code stateParam =
        ({ status := 400, body := some "Invalid state parameter" }, [])) := by
  constructor
  · intro h
    rcases h with h | h <;> simp [handleCallback, h]
  · intro s hsp hct hs hparse
    have hst : jsTruthyStr stateParam = true := by simp [hsp, jsTruthyStr, hs]
    subst hsp
    simp [handleCallback, hct, hst, hparse]

/-- Closed instance of the C4 amended theorem: a missing code and a
JSON-invalid state each give their 400. -/
theorem c4_callback_input_validation_witness :
    handleCallback egCfg egEnvEmptyObjState none (some "\x7b\x7d") =
      ({ status := 400, body := some "Missing code or state parameters" }, []) ∧
    handleCallback egCfg egEnvEmptyObjState (some "authcode") (some "not json") =
      ({ status := 400, body := some "Invalid state parameter" }, []) := by
  constructor
  · exact (c4_callback_input_validation egCfg egEnvEmptyObjState none
      (some "\x7b\x7d")).1 (Or.inl rfl)
  · exact (c4_callback_input_validation egCfg egEnvEmptyObjState (some "authcode")
      (some "not json")).2 "not json" rfl (by decide) (by decide) rfl

/-! ## C5 — configured scope on the authorize request -/

/-- A full configuration with an explicitly configured OAuth scope. -/
def egOAuthConfig : OAuthConfig :=
  { baseUrl := "https://myapp.example.com", appName := "My App",
    cookieSecret := "aaaaaaaaaaaaaaaaaaaaaaaaaaaaaaaa",
    scope := some "atproto transition:generic transition:chat.bsky" }

/-- A login environment with a grammar validator accepting the test handle
and a successful authorize call. -/
def egLoginEnv : LoginEnv :=
  { isValidHandle := fun h => h = "alice.bsky.social"
    authorize := fun _ _ _ _ => .ok "https://bsky.social/oauth/authorize?request_uri=x"
    now := 1700000000000 }

/-- C5: an instance built by `createATProtoOAuth` with a configured scope
still issues its authorize request with `scope` undefined, because the
`RouteHandlersConfig` literal in `createATProtoOAuth` does not forward
`config.scope` — while a supplied `prompt` is forwarded. Evaluated at the
failing input: a valid login on an instance configured with a non-default
scope. -/
theorem c5_scope_not_forwarded :
    egOAuthConfig.scope = some "atproto transition:generic transition:chat.bsky" ∧
    (instanceRoutesConfig egOAuthConfig).scope = none ∧
    (handleLogin (instanceRoutesConfig egOAuthConfig) egLoginEnv
        { handle := some "alice.bsky.social", prompt := some "create" }).2 =
      [.authorizeCall "alice.bsky.social"
        (stringifyOAuthState { handle := "alice.bsky.social", timestamp := 1700000000000 })
        none (some "create")] ∧
    (handleLogin (instanceRoutesConfig egOAuthConfig) egLoginEnv
        { handle := some "alice.bsky.social", prompt := some "create" }).1.status = 302 := by
  refine ⟨rfl, rfl, by decide, by decide⟩

/-! ## C6 — issuer-mismatch recovery -/

/-- C6: when the code exchange throws, an issuer-mismatch error carrying a
truthy recovered handle makes `handleCallback` redirect (302) to
`/login?handle=<url-encoded handle>` instead of erroring; every other
exchange failure — including an issuer mismatch without a recovered
handle — yields a 400 whose body carries the error message. -/
theorem c6_issuer_mismatch_recovery (cfg : RoutesConfig) (env : CallbackEnv)
    (c sp : String) (hc : c ≠ "") (hsp : sp ≠ "")
    (state : Json) (hparse : env.jsonParse sp = .ok state)
    (e : CallbackFailure) (hex : env.exchange = .error e) :
    (∀ h, e.errHandle = some h → h ≠ "" → e.isIssuerMismatch = true →
      handleCallback cfg env (some c) (some sp) =
        ({ status := 302, location := some ("/login?handle=" ++ encodeURIComponent h) }, [])) ∧
    (¬ (e.isIssuerMismatch = true ∧ jsTruthyStr e.errHandle = true) →
      handleCallback cfg env (some c) (some sp) =
        ({ status := 400, body := some ("OAuth callback failed: " ++ e.message) }, [])) := by
  have hct : jsTruthyStr (some c) = true := by simp [jsTruthyStr, hc]
  have hst : jsTruthyStr (some sp) = true := by simp [jsTruthyStr, hsp]
  constructor
  · intro h hh hne him
    simp [handleCallback, hct, hst, hparse, hex, him, hh, jsTruthyStr, hne]
    exact ⟨hc, hsp⟩
  · intro hneg
    simp [handleCallback, hct, hst, hparse, hex, hneg]

/-- A code-exchange failure that is an issuer mismatch carrying the
subject's recovered handle. -/
def egIssuerMismatch : CallbackFailure :=
  { isIssuerMismatch := true, errHandle := some "alice.bsky.social",
    message := "Issuer mismatch" }

/-- A callback environment whose exchange throws the given failure. -/
def egEnvFailing (e : CallbackFailure) : CallbackEnv :=
  { jsonParse := fun s => if s = "st" then .ok egStateWeb else .error ()
    exchange := .error e
    createSession := fun _ _ => "sid=sealedcookie"
    sealToken := fun _ => "sealedtoken"
    now := 0 }

/-- Closed instance of the C6 theorem: the issuer-mismatch redirect for a
concrete recovered handle, and the 400 with the message for a plain
failure. -/
theorem c6_issuer_mismatch_recovery_witness :
    handleCallback egCfg (egEnvFailing egIssuerMismatch) (some "authcode") (some "st") =
      ({ status := 302, location := some "/login?handle=alice.bsky.social" }, []) ∧
    handleCallback egCfg
        (egEnvFailing { isIssuerMismatch := false, message := "Invalid grant" })
        (some "authcode") (some "st") =
      ({ status := 400, body := some "OAuth callback failed: Invalid grant" }, []) := by
  constructor
  · have h := (c6_issuer_mismatch_recovery egCfg (egEnvFailing egIssuerMismatch)
      "authcode" "st" (by decide) (by decide) egStateWeb rfl egIssuerMismatch rfl).1
      "alice.bsky.social" rfl (by decide) rfl
    rw [h]
    rfl
  · exact (c6_issuer_mismatch_recovery egCfg
      (egEnvFailing { isIssuerMismatch := false, message := "Invalid grant" })
      "authcode" "st" (by decide) (by decide) egStateWeb rfl
      { isIssuerMismatch := false, message := "Invalid grant" } rfl).2 (by decide)

/-! ## C7 — logout cookie clearing -/

/-- A logout request whose cookie identifies a subject but whose storage
delete throws. -/
def egLogoutDeleteThrows : LogoutEnv :=
  { cookieRead := .ok { data := some { did := "did:plc:test123" } },
    deleteThrows := true, clearCookie := "sid=; Max-Age=0" }

/-- C7 counterexample: when deleting the stored OAuth record throws, the
logout lands in the catch and returns the 500 `success:false` body with no
Set-Cookie header at all — refuting the claim that a clear-cookie header
is returned regardless of failures. -/
theorem c7_counterexample :
    handleLogout egLogoutDeleteThrows =
      ({ status := 500, contentType := some "application/json",
         body := some "\x7b\"success\":false,\"error\":\"Logout failed\"\x7d" },
        [.storageDelete "session:did:plc:test123"]) ∧
    (handleLogout egLogoutDeleteThrows).1.setCookie = none := by
  exact ⟨rfl, rfl⟩

/-- C7 (amended): on the success path `handleLogout` returns 200
`success:true` with the session manager's clear-cookie Set-Cookie header,
whether or not a prior session existed; but when reading the cookie or
deleting the stored record throws, it returns 500 `success:false` with no
Set-Cookie header (the delete having been attempted when a subject was
identified). -/
theorem c7_logout_clear_cookie (env : LogoutEnv) :
    (∀ r, env.cookieRead = .ok r → usableDid r = none →
      handleLogout env =
        ({ status := 200, contentType := some "application/json",
           setCookie := some env.clearCookie,
           body := some "\x7b\"success\":true\x7d" }, [])) ∧
    (∀ r did, env.cookieRead = .ok r → usableDid r = some did → env.deleteThrows = false →
      handleLogout env =
        ({ status := 200, contentType := some "application/json",
           setCookie := some env.clearCookie,
           body := some "\x7b\"success\":true\x7d" },
          [.storageDelete ("session:" ++ did)])) ∧
    (∀ r did, env.cookieRead = .ok r → usableDid r = some did → env.deleteThrows = true →
      handleLogout env =
        ({ status := 500, contentType := some "application/json",
           body := some "\x7b\"success\":false,\"error\":\"Logout failed\"\x7d" },
          [.storageDelete ("session:" ++ did)])) ∧
    (env.cookieRead = .error () →
      handleLogout env =
        ({ status := 500, contentType := some "application/json",
           body := some "\x7b\"success\":false,\"error\":\"Logout failed\"\x7d" }, [])) := by
  refine ⟨?_, ?_, ?_, ?_⟩
  · intro r hr hu
    simp [handleLogout, hr, hu]
  · intro r did hr hu hd
    simp [handleLogout, hr, hu, hd]
  · intro r did hr hu hd
    simp [handleLogout, hr, hu, hd]
  · intro hr
    simp [handleLogout, hr]

/-- A logout request with no prior session (empty cookie read, no failures). -/
def egLogoutNoSession : LogoutEnv :=
  { cookieRead := .ok { data := none }, deleteThrows := false,
    clearCookie := "sid=; Max-Age=0" }

/-- Closed instance of the C7 amended theorem: a logout with no prior
session still gets the clear-cookie header and a 200 body. -/
theorem c7_logout_clear_cookie_witness :
    handleLogout egLogoutNoSession =
      ({ status := 200, contentType := some "application/json",
         setCookie := some "sid=; Max-Age=0",
         body := some "\x7b\"success\":true\x7d" }, []) := by
  exact (c7_logout_clear_cookie egLogoutNoSession).1 { data := none } rfl rfl

/-! ## C8 — login input classification -/

/-- C8: `handleLogin` classifies its inputs: a missing (or empty, hence
falsy) `handle` gives 400 "Invalid handle"; a present handle that does not
start with `https://` and fails the handle grammar gives 400 "Invalid
handle format"; an `https://`-prefixed handle bypasses the grammar — the
result does not depend on the validator at all; and a present non-empty
`redirect` is recorded into the serialized flow state exactly when it
starts with `/` but not `//`, any other value being dropped with a warning
while the login still proceeds to the authorize call without a redirect
target. -/
theorem c8_login_input_classification (cfg : RoutesConfig) (env : LoginEnv) (q : LoginQuery) :
    (q.handle = none ∨ q.handle = some "" →
      handleLogin cfg env q = ({ status := 400, body := some "Invalid handle" }, [])) ∧
    (∀ h, q.handle = some h → h ≠ "" → strStartsWith h "https://" = false →
      env.isValidHandle h = false →
      handleLogin cfg env q = ({ status := 400, body := some "Invalid handle format" }, [])) ∧
    (∀ h, q.handle = some h → h ≠ "" → strStartsWith h "https://" = true →
      ∀ f : String → Bool,
        handleLogin cfg { env with isValidHandle := f } q = handleLogin cfg env q) ∧
    (∀ h r, q.handle = some h → h ≠ "" →
      (strStartsWith h "https://" = true ∨ env.isValidHandle h = true) →
      q.redirect = some r → r ≠ "" →
      ((strStartsWith r "/" = true ∧ strStartsWith r "//" = false →
        (handleLogin cfg env q).2 =
          [.authorizeCall h
            (stringifyOAuthState
              { handle := h, timestamp := env.now, redirectPath := some r,
                mobile := q.mobile == some "true", pwa := q.pwa == some "true" })
            cfg.scope (loginPrompt q)]) ∧
       (¬ (strStartsWith r "/" = true ∧ strStartsWith r "//" = false) →
        (handleLogin cfg env q).2 =
          [.warnLog ("Invalid redirect path ignored: " ++ r),
            .authorizeCall h
              (stringifyOAuthState
                { handle := h, timestamp := env.now, redirectPath := none,
                  mobile := q.mobile == some "true", pwa := q.pwa == some "true" })
              cfg.scope (loginPrompt q)]))) := by
  refine ⟨?_, ?_, ?_, ?_⟩
  · intro hq
    rcases hq with hq | hq <;> simp [handleLogin, hq, jsTruthyStr]
  · intro h hq hne hS hV
    simp [handleLogin, hq, jsTruthyStr, hne, hS, hV]
  · intro h hq hne hS f
    rcases ha : env.authorize h
        (stringifyOAuthState
          { handle := h, timestamp := env.now,
            redirectPath := (match q.redirect with
              | some r =>
                if r ≠ "" then
                  if strStartsWith r "/" = true ∧ strStartsWith r "//" = false then
                    (some r, ([] : List Effect))
                  else (none, [.warnLog ("Invalid redirect path ignored: " ++ r)])
                else (none, [])
              | none => (none, [])).1,
            mobile := q.mobile == some "true", pwa := q.pwa == some "true" })
        cfg.scope (loginPrompt q) with url | msg <;>
      simp [handleLogin, hq, jsTruthyStr, hne, hS, ha]
  · intro h r hq hne hv hr hrne
    have hfmt : ¬ (strStartsWith h "https://" = false ∧ env.isValidHandle h = false) := by
      rcases hv with hv | hv <;> simp [hv]
    constructor
    · intro hrec
      rcases ha : env.authorize h
          (stringifyOAuthState
            { handle := h, timestamp := env.now, redirectPath := some r,
              mobile := q.mobile == some "true", pwa := q.pwa == some "true" })
          cfg.scope (loginPrompt q) with url | msg <;>
        simp [handleLogin, hq, jsTruthyStr, hne, hfmt, hr, hrne, hrec.1, hrec.2, ha]
    · intro hrec
      rcases ha : env.authorize h
          (stringifyOAuthState
            { handle := h, timestamp := env.now, redirectPath := none,
              mobile := q.mobile == some "true", pwa := q.pwa == some "true" })
          cfg.scope (loginPrompt q) with url | msg <;>
        simp [handleLogin, hq, jsTruthyStr, hne, hfmt, hr, hrne, hrec, ha]

/-- Closed instance of the C8 theorem: a missing handle 400s, a
grammar-rejected handle 400s with the format message, and a
protocol-relative `//evil.com` redirect is dropped with a warning while
the login proceeds. -/
theorem c8_login_input_classification_witness :
    handleLogin egCfg egLoginEnv {} = ({ status := 400, body := some "Invalid handle" }, []) ∧
    handleLogin egCfg egLoginEnv { handle := some "invalid@@@handle" } =
      ({ status := 400, body := some "Invalid handle format" }, []) ∧
    (handleLogin egCfg egLoginEnv
        { handle := some "alice.bsky.social", redirect := some "//evil.com" }).2 =
      [.warnLog "Invalid redirect path ignored: //evil.com",
        .authorizeCall "alice.bsky.social"
          (stringifyOAuthState { handle := "alice.bsky.social", timestamp := 1700000000000 })
          none none] := by
  refine ⟨?_, ?_, ?_⟩
  · exact (c8_login_input_classification egCfg egLoginEnv {}).1 (Or.inl rfl)
  · exact (c8_login_input_classification egCfg egLoginEnv
      { handle := some "invalid@@@handle" }).2.1 "invalid@@@handle" rfl (by decide)
      (by decide) (by decide)
  · have h := ((c8_login_input_classification egCfg egLoginEnv
      { handle := some "alice.bsky.social", redirect := some "//evil.com" }).2.2.2
      "alice.bsky.social" "//evil.com" rfl (by decide) (Or.inr (by decide)) rfl
      (by decide)).2 (by decide)
    rw [h]
    rfl

/-! ## C9 — client metadata identity derivation -/

/-- C9: for a base URL (after trailing-slash stripping) whose parsed host
is a loopback literal, `generateClientMetadata` rewrites the redirect URI
host to `127.0.0.1` keeping the scheme and normalized port, and builds
`client_id` as `http://localhost?redirect_uri=<enc>&scope=<enc>` whose
decoded parameters reproduce the exact redirect URI and scope; for every
non-loopback base URL the `client_id` is
`<baseUrl>/oauth-client-metadata.json` and the redirect URI is
`<baseUrl>/oauth/callback`, on the stripped base URL. -/
theorem c9_generateClientMetadata_identity (cfg : OAuthConfig) :
    (∀ u : UrlParts, parseUrl (stripTrailingSlash cfg.baseUrl) = some u →
      (u.hostname = "localhost" ∨ u.hostname = "127.0.0.1" ∨ u.hostname = "[::1]" ∨
        u.hostname = "::1") →
      (generateClientMetadata cfg).redirect_uris =
        [u.scheme ++ "://127.0.0.1" ++ portSuffix u.port ++ "/oauth/callback"] ∧
      (generateClientMetadata cfg).client_id =
        "http://localhost?redirect_uri="
          ++ formUrlEncode (u.scheme ++ "://127.0.0.1" ++ portSuffix u.port ++ "/oauth/callback")
          ++ "&scope=" ++ formUrlEncode (resolvedScope cfg) ∧
      formUrlDecode
          (formUrlEncode (u.scheme ++ "://127.0.0.1" ++ portSuffix u.port ++ "/oauth/callback")) =
        some (u.scheme ++ "://127.0.0.1" ++ portSuffix u.port ++ "/oauth/callback") ∧
      formUrlDecode (formUrlEncode (resolvedScope cfg)) = some (resolvedScope cfg)) ∧
    (isLoopbackUrl (stripTrailingSlash cfg.baseUrl) = false →
      (generateClientMetadata cfg).client_id =
        stripTrailingSlash cfg.baseUrl ++ "/oauth-client-metadata.json" ∧
      (generateClientMetadata cfg).redirect_uris =
        [stripTrailingSlash cfg.baseUrl ++ "/oauth/callback"]) := by
  constructor
  · intro u hu hloop
    have hl : isLoopbackUrl (stripTrailingSlash cfg.baseUrl) = true := by
      simp only [isLoopbackUrl, hu]
      exact decide_eq_true hloop
    refine ⟨?_, ?_, formUrlDecode_formUrlEncode _, formUrlDecode_formUrlEncode _⟩
    · simp [generateClientMetadata, hl, buildLoopbackRedirectUri, hu]
    · simp [generateClientMetadata, hl, buildLoopbackRedirectUri, buildLoopbackClientId, hu]
  · intro hl
    exact ⟨by simp [generateClientMetadata, hl], by simp [generateClientMetadata, hl]⟩

/-- A local-development configuration on a loopback base URL. -/
def egLoopbackConfig : OAuthConfig :=
  { baseUrl := "http://localhost:8000", appName := "Dev App",
    cookieSecret := "aaaaaaaaaaaaaaaaaaaaaaaaaaaaaaaa" }

/-- Closed instance of the C9 theorem: the loopback identity for
`http://localhost:8000` (with the url-encoded round-tripping parameters)
and the non-loopback identity for `https://myapp.example.com`. -/
theorem c9_generateClientMetadata_identity_witness :
    (generateClientMetadata egLoopbackConfig).redirect_uris =
      ["http://127.0.0.1:8000/oauth/callback"] ∧
    (generateClientMetadata egLoopbackConfig).client_id =
      "http://localhost?redirect_uri=http%3A%2F%2F127.0.0.1%3A8000%2Foauth%2Fcallback&scope=atproto+transition%3Ageneric" ∧
    formUrlDecode "http%3A%2F%2F127.0.0.1%3A8000%2Foauth%2Fcallback" =
      some "http://127.0.0.1:8000/oauth/callback" ∧
    formUrlDecode "atproto+transition%3Ageneric" = some "atproto transition:generic" ∧
    (generateClientMetadata egOAuthConfig).client_id =
      "https://myapp.example.com/oauth-client-metadata.json" ∧
    (generateClientMetadata egOAuthConfig).redirect_uris =
      ["https://myapp.example.com/oauth/callback"] := by
  have hloop := (c9_generateClientMetadata_identity egLoopbackConfig).1
    { scheme := "http", hostname := "localhost", port := some "8000" } (by decide)
    (Or.inl rfl)
  have hrest := (c9_generateClientMetadata_identity egOAuthConfig).2 (by decide)
  refine ⟨?_, ?_, ?_, ?_, ?_, ?_⟩
  · rw [hloop.1]
    rfl
  · rw [hloop.2.1]
    rfl
  · have h := hloop.2.2.1
    rw [show formUrlEncode ("http" ++ "://127.0.0.1" ++ portSuffix (some "8000")
        ++ "/oauth/callback") = "http%3A%2F%2F127.0.0.1%3A8000%2Foauth%2Fcallback" from rfl]
      at h
    rw [h]
    rfl
  · have h := hloop.2.2.2
    rw [show formUrlEncode (resolvedScope egLoopbackConfig) =
        "atproto+transition%3Ageneric" from rfl] at h
    rw [h]
    rfl
  · rw [hrest.1]
    rfl
  · rw [hrest.2]
    rfl

/-! ## C10 — mobile-scheme guard reachability -/

/-- A configuration that explicitly sets the mobile scheme to the empty
string (a legal `string`-typed value that `??` does not replace). -/
def egEmptySchemeConfig : OAuthConfig :=
  { baseUrl := "https://myapp.example.com", appName := "My App",
    cookieSecret := "aaaaaaaaaaaaaaaaaaaaaaaaaaaaaaaa", mobileScheme := some "" }

/-- C10 counterexample: an instance built by the public constructor with
`mobileScheme: ""` keeps the empty scheme — nullish coalescing does not
replace it — so its mobile-branch guard is falsy and a mobile-flagged
callback falls through to the web dispatch (302 to `/`), refuting both
the non-empty-scheme invariant and the unreachability of the fallback. -/
theorem c10_counterexample :
    (instanceRoutesConfig egEmptySchemeConfig).mobileScheme = some "" ∧
    (handleCallback (instanceRoutesConfig egEmptySchemeConfig) (egEnvWith egStateMobile)
        (some "authcode") (some "st")).1 =
      { status := 302, location := some "/", setCookie := some "sid=sealedcookie" } := by
  exact ⟨rfl, rfl⟩

/-- C10 (amended): an instance built with `mobileScheme` omitted gets the
non-empty default `app://auth-callback`, and one built with a non-empty
scheme keeps it truthy; for every such instance a mobile-flagged callback
always takes the mobile redirect. Only an explicitly configured
empty-string scheme defeats the guard. -/
theorem c10_default_scheme_guard (cfg : OAuthConfig) :
    (cfg.mobileScheme = none →
      (instanceRoutesConfig cfg).mobileScheme = some DEFAULT_MOBILE_SCHEME ∧
        DEFAULT_MOBILE_SCHEME ≠ "") ∧
    (∀ s, cfg.mobileScheme = some s → s ≠ "" →
      jsTruthyStr (instanceRoutesConfig cfg).mobileScheme = true) ∧
    (jsTruthyStr (instanceRoutesConfig cfg).mobileScheme = true →
      ∀ (env : CallbackEnv) (c sp : String) (state : Json) (sess : Session),
        c ≠ "" → sp ≠ "" → env.jsonParse sp = .ok state → env.exchange = .ok sess →
        state.isNull = false → jsTruthy (state.propOpt "mobile") = true →
        (handleCallback (instanceRoutesConfig cfg) env (some c) (some sp)).1 =
          { status := 302,
            location := some (mobileCallbackLocation
              ((instanceRoutesConfig cfg).mobileScheme.getD "")
              (env.sealToken sess.did) sess.did (jsToStringU (state.propOpt "handle"))),
            setCookie := some (env.createSession sess.did env.now) }) := by
  refine ⟨?_, ?_, ?_⟩
  · intro h
    exact ⟨by simp [instanceRoutesConfig, h], by decide⟩
  · intro s h hs
    simp [instanceRoutesConfig, h, jsTruthyStr, hs]
  · intro hguard env c sp state sess hc hsp hparse hex hnn hm
    have hct : jsTruthyStr (some c) = true := by simp [jsTruthyStr, hc]
    have hst : jsTruthyStr (some sp) = true := by simp [jsTruthyStr, hsp]
    simp [handleCallback, hct, hst, hparse, hex, hnn, hm, hguard]

/-- Closed instance of the C10 amended theorem: the default-configured
instance routes a mobile-flagged callback to the default scheme with the
sealed token, did and handle parameters. -/
theorem c10_default_scheme_guard_witness :
    (instanceRoutesConfig
        { baseUrl := "https://myapp.example.com", appName := "My App",
          cookieSecret := "aaaaaaaaaaaaaaaaaaaaaaaaaaaaaaaa" }).mobileScheme =
      some "app://auth-callback" ∧
    (handleCallback
        (instanceRoutesConfig
          { baseUrl := "https://myapp.example.com", appName := "My App",
            cookieSecret := "aaaaaaaaaaaaaaaaaaaaaaaaaaaaaaaa" })
        (egEnvWith egStateMobile) (some "authcode") (some "st")).1 =
      { status := 302,
        location := some
          "app://auth-callback?session_token=sealedtoken&did=did%3Aplc%3Atest123&handle=alice.bsky.social",
        setCookie := some "sid=sealedcookie" } := by
  constructor
  · exact ((c10_default_scheme_guard
      { baseUrl := "https://myapp.example.com", appName := "My App",
        cookieSecret := "aaaaaaaaaaaaaaaaaaaaaaaaaaaaaaaa" }).1 rfl).1
  · have h := (c10_default_scheme_guard
      { baseUrl := "https://myapp.example.com", appName := "My App",
        cookieSecret := "aaaaaaaaaaaaaaaaaaaaaaaaaaaaaaaa" }).2.2 (by decide)
      (egEnvWith egStateMobile) "authcode" "st" egStateMobile egSession
      (by decide) (by decide) rfl rfl rfl rfl
    rw [h]
    rfl
